import Mathlib

/-!
Shallow embedding of `src/s3_extend/gateways/ws_gateway.py` (class `WsGateway`).

The gateway bridges WebSocket clients and the Banyan publish/subscribe bus.
We model:
  * JSON values (`JVal`) as produced by `json.loads` — JSON numbers are
    restricted to integers, which covers every behaviour the claims are about;
  * the session registry `active_sockets`: a Python list of dicts, each dict
    literally `{websocket: 'to_banyan_topic', subscriber_string: websocket}`
    (line 155).  Dict keys are heterogeneous (a socket handle or a string), so
    entries are rendered to `List (DKey × DVal)` by `entryDict`;
  * the topic deriver `id_string.replace('to', 'from')` (line 149) — Python
    `str.replace` replaces every non-overlapping occurrence, left to right;
  * the handshake handler `wsg` (lines 120–159), the per-connection receive
    loop `receive_data` (lines 161–179) and the bus-message router
    `incoming_message_processing` (lines 181–209).

Effects of the external collaborators are made explicit:
  * `websocket.recv()` either returns a text frame or raises
    `ConnectionClosed`; each received frame carries its `json.loads` outcome;
  * `websocket.close()` is idempotent and does not raise;
  * `websocket.send()` on a connection that is already closed raises
    `ConnectionClosed` (the behaviour of the `websockets` library);
  * `datetime.datetime.fromtimestamp` accepts ints (and bools, which Python
    treats as ints) and raises `TypeError` on any other argument; its
    `strftime('%Y-%m-%d %H:%M:%S')` rendering is timezone-dependent and is
    kept abstract as a parameter `fmt : Int → String`.
-/

/-- Python exceptions that can arise in the modelled code paths. -/
inductive PyErr
  | keyError
  | typeError
  | jsonDecodeError
  | connectionClosed
  | unboundLocalError
  | attributeError
  deriving DecidableEq, Repr

/-- A JSON value as returned by `json.loads` (numbers restricted to
integers; object members keep insertion order, keys unique, as in a
Python dict). -/
inductive JVal
  | null
  | bool (b : Bool)
  | num (n : Int)
  | str (s : String)
  | arr (elems : List JVal)
  | obj (members : List (String × JVal))

/-- Python dict lookup `d[k]` on a string-keyed dict (first matching key;
keys of a dict are unique, so this is exact). -/
def objGet (fields : List (String × JVal)) (k : String) : Option JVal :=
  match fields with
  | [] => none
  | (k', v) :: rest => if k' = k then some v else objGet rest k

/-- Python dict assignment `d[k] = v`: updates the existing key in place
(keeping its position), or appends a new key at the end. -/
def objSet (fields : List (String × JVal)) (k : String) (v : JVal) :
    List (String × JVal) :=
  match fields with
  | [] => [(k, v)]
  | (k', v') :: rest => if k' = k then (k, v) :: rest else (k', v') :: objSet rest k v

/-- Python's `payload['report'] == 'panic'` test (line 190): `==` against the string
sentinel; any non-string value compares unequal. -/
def isPanicVal : JVal → Bool
  | .str s => s == "panic"
  | _ => false

/-- The int Python's `datetime.fromtimestamp` would receive, if any:
JSON numbers pass through, and JSON booleans are accepted because Python's
`bool` is a subclass of `int` (`True` is `1`).  Everything else makes
`fromtimestamp` raise `TypeError`. -/
def numValue? : JVal → Option Int
  | .num n => some n
  | .bool b => some (if b then 1 else 0)
  | _ => none

mutual
/-- Model of `json.dumps` (line 202), rendered with Python's default separators.
String escaping is elided (none of the payloads the claims quantify over
contain characters needing escapes). -/
def dumpsVal : JVal → String
  | .null => "null"
  | .bool true => "true"
  | .bool false => "false"
  | .num n => toString n
  | .str s => "\"" ++ s ++ "\""
  | .arr es => "[" ++ dumpsArr es ++ "]"
  | .obj ms => "\x7b" ++ dumpsObj ms ++ "\x7d"

def dumpsArr : List JVal → String
  | [] => ""
  | [v] => dumpsVal v
  | v :: rest => dumpsVal v ++ ", " ++ dumpsArr rest

def dumpsObj : List (String × JVal) → String
  | [] => ""
  | [(k, v)] => "\"" ++ k ++ "\": " ++ dumpsVal v
  | (k, v) :: rest => "\"" ++ k ++ "\": " ++ dumpsVal v ++ ", " ++ dumpsObj rest
end

/-- Whether the character list contains the substring `"to"`. -/
def containsTo : List Char → Bool
  | [] => false
  | [_] => false
  | c :: o :: rest2 =>
    if c = 't' ∧ o = 'o' then true else containsTo (o :: rest2)

/-- Python `str.replace('to', 'from')` on a character list: scan left to
right, replacing every non-overlapping occurrence of `to` by `from`
(line 149's `id_string.replace('to', 'from')`). -/
def replaceToFrom : List Char → List Char
  | [] => []
  | [c] => [c]
  | c :: o :: rest2 =>
    if c = 't' ∧ o = 'o' then 'f' :: 'r' :: 'o' :: 'm' :: replaceToFrom rest2
    else c :: replaceToFrom (o :: rest2)

/-- The Topic Deriver: `subscriber_string = id_string.replace('to', 'from')`
(line 149). -/
def deriveSubscribe (id : String) : String :=
  String.mk (replaceToFrom id.data)

/-- The spec's reading of the Topic Deriver ("replace the first occurrence of
the literal substring `to` with `from`"), for comparison with the code's
replace-all behaviour. -/
def replaceFirstToFrom : List Char → List Char
  | [] => []
  | [c] => [c]
  | c :: o :: rest2 =>
    if c = 't' ∧ o = 'o' then 'f' :: 'r' :: 'o' :: 'm' :: rest2
    else c :: replaceFirstToFrom (o :: rest2)

/-- Spec-side first-occurrence-only deriver, on strings. -/
def deriveSubscribeFirstOnly (id : String) : String :=
  String.mk (replaceFirstToFrom id.data)

/-- Opaque identity of one WebSocket connection handle. -/
abbrev ConnId := Nat

/-- A key of a registry-entry dict: either the socket handle itself or the
derived subscriber-topic string (line 155 mixes both key types). -/
inductive DKey
  | kconn (c : ConnId)
  | kstr (s : String)
  deriving DecidableEq, Repr

/-- A value of a registry-entry dict: the constant string
`'to_banyan_topic'` or the socket handle. -/
inductive DVal
  | vstr (s : String)
  | vconn (c : ConnId)
  deriving DecidableEq, Repr

/-- One element of `active_sockets`: the data the dict literal at line 155
is built from — the connection handle and the derived subscriber topic. -/
structure Entry where
  conn : ConnId
  subTopic : String
  deriving DecidableEq, Repr

/-- The dict the source appends: `{websocket: 'to_banyan_topic',
subscriber_string: websocket}` (line 155).  The two keys are always distinct
because a socket handle is never a string. -/
def entryDict (e : Entry) : List (DKey × DVal) :=
  [(DKey.kconn e.conn, DVal.vstr "to_banyan_topic"),
   (DKey.kstr e.subTopic, DVal.vconn e.conn)]

/-- Python dict lookup on an entry dict. -/
def dictLookup (d : List (DKey × DVal)) (k : DKey) : Option DVal :=
  match d with
  | [] => none
  | (k', v) :: rest => if k' = k then some v else dictLookup rest k

/-- Python `k in d` on an entry dict (key membership). -/
def dictHasKey (d : List (DKey × DVal)) (k : DKey) : Bool :=
  (dictLookup d k).isSome

/-- Membership test `topic in socket.keys()` (lines 193 and 207): the string `topic` tested
for key membership in the entry's dict. -/
def entryHasTopic (e : Entry) (t : String) : Bool :=
  dictHasKey (entryDict e) (DKey.kstr t)

/-- Lookup `pub_socket = socket[topic]` (lines 194 and 208): dict lookup of the
string `topic`, yielding the connection handle when it is a key. -/
def entryConnForTopic (e : Entry) (t : String) : Option ConnId :=
  match dictLookup (entryDict e) (DKey.kstr t) with
  | some (DVal.vconn c) => some c
  | _ => none

/-- The `websocket not in entry` filtering (lines 175–176): the list
comprehension keeps exactly the entries whose dict does not have the
connection handle as a key. -/
def removeConnEntries (ws : ConnId) (registry : List Entry) : List Entry :=
  registry.filter (fun e => !(dictHasKey (entryDict e) (DKey.kconn ws)))

/-- Number of registry entries whose dict has the connection handle as a
key. -/
def countConn (ws : ConnId) (registry : List Entry) : Nat :=
  (registry.filter (fun e => dictHasKey (entryDict e) (DKey.kconn ws))).length

/-- Number of registry entries whose dict has the topic string as a key. -/
def countTopic (t : String) (registry : List Entry) : Nat :=
  (registry.filter (fun e => entryHasTopic e t)).length

/-- The connections of the entries matching a topic, in registry order. -/
def matchingConns (registry : List Entry) (topic : String) : List ConnId :=
  (registry.filter (fun e => entryHasTopic e topic)).map Entry.conn

/-! ### Connection Handshake Handler (`wsg`, lines 120–159) -/

/-- What the first `websocket.recv()` of a connection does (lines 133–136):
deliver a text frame (recorded together with its `json.loads` outcome,
line 139), or raise one of the two `ConnectionClosed` subclasses. -/
inductive HsEvent
  | text (parsed : Except PyErr JVal)
  | closedOK
  | closedError

/-- Observable outcome of the handshake handler: the registry after it ran,
which topic (if any) was passed to `set_subscriber_topic` (line 152), which
`receive_data` task (socket, publisher topic) was started (line 159), and
the exception that escaped `wsg`, if any. -/
structure HsResult where
  registry : List Entry
  subscribed : Option String
  relay : Option (ConnId × String)
  error : Option PyErr
  deriving DecidableEq, Repr

/-- The handshake handler `wsg` (lines 132–159), one branch per source path:

* `recv` raises `ConnectionClosedOK` → the bare `except ... : pass`
  (lines 135–136) swallows it, but then `json.loads(data)` (line 139) runs
  with `data` never assigned, raising `UnboundLocalError`;
* `recv` raises `ConnectionClosedError` → not caught, propagates;
* `json.loads` fails → `JSONDecodeError` propagates (line 139);
* `data['id']` on a non-dict raises `TypeError`; on a dict without `'id'`
  raises `KeyError`, re-raised by lines 142–146;
* a non-string id makes `id_string.replace` raise `AttributeError`
  (line 149);
* otherwise the entry dict is appended (lines 155–156) and
  `receive_data(websocket, data['id'])` is started (line 159). -/
def wsg (ws : ConnId) (registry : List Entry) (ev : HsEvent) : HsResult :=
  match ev with
  | .closedOK => ⟨registry, none, none, some .unboundLocalError⟩
  | .closedError => ⟨registry, none, none, some .connectionClosed⟩
  | .text (.error e) => ⟨registry, none, none, some e⟩
  | .text (.ok v) =>
    match v with
    | .obj fields =>
      match objGet fields "id" with
      | none => ⟨registry, none, none, some .keyError⟩
      | some (.str id_string) =>
        let subscriber_string := deriveSubscribe id_string
        ⟨registry ++ [⟨ws, subscriber_string⟩], some subscriber_string,
          some (ws, id_string), none⟩
      | some _ => ⟨registry, none, none, some .attributeError⟩
    | _ => ⟨registry, none, none, some .typeError⟩

/-! ### Outbound Relay (`receive_data`, lines 161–179) -/

/-- One iteration's `websocket.recv()` outcome inside the relay loop: a text
frame carrying its `json.loads` outcome (line 171), or a raised
`ConnectionClosed` (either subclass). -/
inductive RecvEvent
  | text (parsed : Except PyErr JVal)
  | closed

/-- How the relay loop ended. -/
inductive RelayExit
  | cleanedUp
  | uncaught (e : PyErr)
  | running
  deriving DecidableEq, Repr

/-- Observable outcome of running the relay loop on a finite script of recv
outcomes: the registry afterwards, the `publish_payload(data,
publisher_topic)` calls in order (line 179), and how the loop ended. -/
structure RelayResult where
  registry : List Entry
  published : List (JVal × String)
  exit : RelayExit

/-- Which exceptions the relay's `except (ConnectionClosed, TypeError)`
clause (line 172) catches. -/
def caughtByRelay : PyErr → Bool
  | .typeError => true
  | .connectionClosed => true
  | _ => false

/-- The relay loop `receive_data` (lines 168–179):

* `recv` raising `ConnectionClosed` is caught → the list comprehension
  removes this socket's entries and the loop breaks (lines 172–177);
* a frame whose `json.loads` raises `TypeError` is caught the same way;
* a frame whose `json.loads` raises `JSONDecodeError` is NOT caught
  (the clause names only `ConnectionClosed` and `TypeError`), so the
  exception escapes the loop with no registry cleanup;
* a parsed frame is published under `publisher_topic` and the loop
  continues. -/
def receive_data (ws : ConnId) (pubTopic : String) (registry : List Entry) :
    List RecvEvent → RelayResult
  | [] => ⟨registry, [], .running⟩
  | .closed :: _ => ⟨removeConnEntries ws registry, [], .cleanedUp⟩
  | .text (.error e) :: _ =>
    if caughtByRelay e then ⟨removeConnEntries ws registry, [], .cleanedUp⟩
    else ⟨registry, [], .uncaught e⟩
  | .text (.ok v) :: rest =>
    let r := receive_data ws pubTopic registry rest
    ⟨r.registry, (v, pubTopic) :: r.published, r.exit⟩

/-! ### Inbound Router (`incoming_message_processing`, lines 181–209) -/

/-- The panic close loop (lines 192–195): for every entry whose dict has
`topic` as a key, `await socket[topic].close()`.  Closing is modelled by
accumulating the closed handles (`close` is idempotent and never raises). -/
def closeStep (registry : List Entry) (closed : List ConnId) (topic : String) :
    List ConnId :=
  match registry with
  | [] => closed
  | e :: rest =>
    match entryConnForTopic e topic with
    | some c => closeStep rest (c :: closed) topic
    | none => closeStep rest closed topic

/-- Step 2 (lines 197–200): if `'timestamp' in payload`, rewrite it in place
with `fromtimestamp(...).strftime('%Y-%m-%d %H:%M:%S')`; `fromtimestamp`
raises `TypeError` on a non-numeric (and non-bool) value. -/
def normalizeTimestamp (fmt : Int → String) (payload : List (String × JVal)) :
    Except PyErr (List (String × JVal)) :=
  match objGet payload "timestamp" with
  | none => .ok payload
  | some v =>
    match numValue? v with
    | some n => .ok (objSet payload "timestamp" (.str (fmt n)))
    | none => .error .typeError

/-- Step 3, the fan-out loop (lines 206–209): for every entry whose dict has
`topic` as a key, `await socket[topic].send(ws_data)`.  A send to a
connection that is already closed raises `ConnectionClosed` (the
`websockets` library's behaviour), aborting the loop there; the sends
already performed are kept. -/
def fanoutRun (registry : List Entry) (closed : List ConnId) (topic : String)
    (msg : String) : List (ConnId × String) × Option PyErr :=
  match registry with
  | [] => ([], none)
  | e :: rest =>
    match entryConnForTopic e topic with
    | none => fanoutRun rest closed topic msg
    | some c =>
      if closed.contains c then ([], some .connectionClosed)
      else
        let (s, err) := fanoutRun rest closed topic msg
        ((c, msg) :: s, err)

/-- Observable outcome of one router invocation: the registry afterwards
(the router never mutates `active_sockets`, it only iterates it), the set
of connections closed so far, the sends performed in order, and the
exception escaping the router, if any. -/
structure RouterResult where
  registry : List Entry
  closed : List ConnId
  sends : List (ConnId × String)
  error : Option PyErr
  deriving DecidableEq, Repr

/-- The Inbound Router `incoming_message_processing` (lines 181–209):

* `payload['report']` (line 190) raises `KeyError` when the field is
  absent, before anything else happens;
* if the report equals `'panic'`, every matching entry's socket is closed
  (lines 192–195);
* timestamp normalization (lines 197–200) may raise `TypeError`, after the
  closes but before any send;
* `ws_data = json.dumps(payload)` (line 202), then the fan-out loop sends
  `ws_data` to every matching entry's socket (lines 206–209); a send to a
  socket closed in the panic step raises `ConnectionClosed` out of the
  router. -/
def incoming_message_processing (fmt : Int → String) (registry : List Entry)
    (closed : List ConnId) (topic : String)
    (payload : List (String × JVal)) : RouterResult :=
  match objGet payload "report" with
  | none => ⟨registry, closed, [], some .keyError⟩
  | some rep =>
    let closed1 := if isPanicVal rep then closeStep registry closed topic else closed
    match normalizeTimestamp fmt payload with
    | .error e => ⟨registry, closed1, [], some e⟩
    | .ok payload1 =>
      let msg := dumpsVal (.obj payload1)
      let (sends, err) := fanoutRun registry closed1 topic msg
      ⟨registry, closed1, sends, err⟩

/-! ### Helper lemmas about the entry dict and the registry operations -/

/-- Looking a string key up in an entry dict succeeds exactly on the
subscriber topic, and yields the connection handle. -/
theorem entryConnForTopic_eq (e : Entry) (t : String) :
    entryConnForTopic e t = if e.subTopic = t then some e.conn else none := by
  by_cases h : e.subTopic = t <;>
    simp [entryConnForTopic, entryDict, dictLookup, h]

/-- String-key membership in an entry dict is comparison with the
subscriber topic. -/
theorem entryHasTopic_eq (e : Entry) (t : String) :
    entryHasTopic e t = decide (e.subTopic = t) := by
  by_cases h : e.subTopic = t <;>
    simp [entryHasTopic, dictHasKey, entryDict, dictLookup, h]

/-- Connection-key membership in an entry dict is comparison with the
entry's connection handle. -/
theorem entryHasConn_eq (e : Entry) (c : ConnId) :
    dictHasKey (entryDict e) (DKey.kconn c) = decide (e.conn = c) := by
  by_cases h : e.conn = c <;>
    simp [dictHasKey, entryDict, dictLookup, h]

/-- The relay's list-comprehension removal keeps exactly the entries of
other connections. -/
theorem removeConnEntries_eq (ws : ConnId) (reg : List Entry) :
    removeConnEntries ws reg = reg.filter (fun e => decide (e.conn ≠ ws)) := by
  unfold removeConnEntries
  apply List.filter_congr
  intro e _
  by_cases h : e.conn = ws <;> simp [entryHasConn_eq, h]

/-- After removal, no entry for the removed connection remains. -/
theorem countConn_removeConnEntries (ws : ConnId) (reg : List Entry) :
    countConn ws (removeConnEntries ws reg) = 0 := by
  simp [countConn, removeConnEntries, List.filter_filter]

/-- Membership in the closed-set accumulated by the panic close loop. -/
theorem closeStep_mem (reg : List Entry) (closed : List ConnId) (topic : String)
    (c : ConnId) :
    c ∈ closeStep reg closed topic ↔
      c ∈ closed ∨ ∃ e ∈ reg, e.subTopic = topic ∧ e.conn = c := by
  induction reg generalizing closed with
  | nil => simp [closeStep]
  | cons e rest ih =>
    by_cases h : e.subTopic = topic
    · have hred : closeStep (e :: rest) closed topic =
          closeStep rest (e.conn :: closed) topic := by
        rw [closeStep, entryConnForTopic_eq, if_pos h]
      rw [hred, ih]
      constructor
      · rintro (hc | ⟨e', hm, ht, hcn⟩)
        · rcases List.mem_cons.mp hc with h1 | h2
          · exact Or.inr ⟨e, List.mem_cons_self e rest, h, h1.symm⟩
          · exact Or.inl h2
        · exact Or.inr ⟨e', List.mem_cons_of_mem _ hm, ht, hcn⟩
      · rintro (hc | ⟨e', hm, ht, hcn⟩)
        · exact Or.inl (List.mem_cons_of_mem _ hc)
        · rcases List.mem_cons.mp hm with h1 | h2
          · subst h1
            exact Or.inl (List.mem_cons.mpr (Or.inl hcn.symm))
          · exact Or.inr ⟨e', h2, ht, hcn⟩
    · have hred : closeStep (e :: rest) closed topic =
          closeStep rest closed topic := by
        rw [closeStep, entryConnForTopic_eq, if_neg h]
      rw [hred, ih]
      constructor
      · rintro (hc | ⟨e', hm, ht, hcn⟩)
        · exact Or.inl hc
        · exact Or.inr ⟨e', List.mem_cons_of_mem _ hm, ht, hcn⟩
      · rintro (hc | ⟨e', hm, ht, hcn⟩)
        · exact Or.inl hc
        · rcases List.mem_cons.mp hm with h1 | h2
          · exact absurd (h1 ▸ ht) h
          · exact Or.inr ⟨e', h2, ht, hcn⟩

/-- When every matching connection is open, the fan-out loop completes
without error and sends to exactly the matching entries, in order. -/
theorem fanoutRun_all_open (reg : List Entry) (closed : List ConnId)
    (topic msg : String)
    (h : ∀ e ∈ reg, e.subTopic = topic → closed.contains e.conn = false) :
    fanoutRun reg closed topic msg =
      ((reg.filter (fun e => entryHasTopic e topic)).map (fun e => (e.conn, msg)),
        none) := by
  induction reg with
  | nil => simp [fanoutRun]
  | cons e rest ih =>
    have ih' := ih (fun e' hm ht => h e' (List.mem_cons_of_mem _ hm) ht)
    by_cases he : e.subTopic = topic
    · have hop : closed.contains e.conn = false := h e (List.mem_cons_self _ _) he
      have hred : fanoutRun (e :: rest) closed topic msg =
          ((e.conn, msg) :: (fanoutRun rest closed topic msg).1,
            (fanoutRun rest closed topic msg).2) := by
        rw [fanoutRun, entryConnForTopic_eq, if_pos he]
        simp only [hop, Bool.false_eq_true, if_false]
      rw [hred, ih']
      simp [List.filter_cons, entryHasTopic_eq, he]
    · have hred : fanoutRun (e :: rest) closed topic msg =
          fanoutRun rest closed topic msg := by
        rw [fanoutRun, entryConnForTopic_eq, if_neg he]
      rw [hred, ih']
      simp [List.filter_cons, entryHasTopic_eq, he]

/-- Whenever the relay loop ends via its caught-exception path, the registry
holds no entry for that connection any more. -/
theorem receive_data_cleanup (ws : ConnId) (pub : String) (reg : List Entry)
    (script : List RecvEvent)
    (h : (receive_data ws pub reg script).exit = RelayExit.cleanedUp) :
    countConn ws (receive_data ws pub reg script).registry = 0 := by
  induction script with
  | nil => simp [receive_data] at h
  | cons ev rest ih =>
    cases ev with
    | closed => simpa [receive_data] using countConn_removeConnEntries ws reg
    | text p =>
      cases p with
      | ok v =>
        rw [receive_data] at h ⊢
        exact ih h
      | error e =>
        by_cases hc : caughtByRelay e = true
        · simpa [receive_data, hc] using countConn_removeConnEntries ws reg
        · rw [receive_data] at h
          rw [Bool.not_eq_true] at hc
          rw [hc] at h
          simp at h

/-- Whenever an exception escapes the relay loop uncaught, the registry is
left exactly as it was — no cleanup ran. -/
theorem receive_data_uncaught (ws : ConnId) (pub : String) (reg : List Entry)
    (script : List RecvEvent) (e : PyErr)
    (h : (receive_data ws pub reg script).exit = RelayExit.uncaught e) :
    (receive_data ws pub reg script).registry = reg := by
  induction script with
  | nil => simp [receive_data] at h
  | cons ev rest ih =>
    cases ev with
    | closed => simp [receive_data] at h
    | text p =>
      cases p with
      | ok v =>
        rw [receive_data] at h ⊢
        exact ih h
      | error e' =>
        by_cases hc : caughtByRelay e' = true
        · simp [receive_data, hc] at h
        · rw [Bool.not_eq_true] at hc
          simp [receive_data, hc]

/-! ### Helper lemmas about the topic deriver -/

/-- An id with no occurrence of `to` passes through unchanged. -/
theorem replaceToFrom_of_not_containsTo (l : List Char)
    (h : containsTo l = false) : replaceToFrom l = l := by
  induction l using replaceToFrom.induct with
  | case1 => rfl
  | case2 c => rfl
  | case3 c o rest2 hto ih => simp [containsTo, hto] at h
  | case4 c o rest2 hto ih =>
    rw [containsTo, if_neg hto] at h
    rw [replaceToFrom, if_neg hto, ih h]

/-- Replacement never shortens the id. -/
theorem replaceToFrom_length_le (l : List Char) :
    l.length ≤ (replaceToFrom l).length := by
  induction l using replaceToFrom.induct with
  | case1 => simp
  | case2 c => simp [replaceToFrom]
  | case3 c o rest2 hto ih =>
    rw [replaceToFrom, if_pos hto]
    simp at ih ⊢
    omega
  | case4 c o rest2 hto ih =>
    rw [replaceToFrom, if_neg hto]
    simp at ih ⊢
    omega

/-- An id containing `to` strictly grows, so it is genuinely changed. -/
theorem replaceToFrom_length_lt (l : List Char) (h : containsTo l = true) :
    l.length < (replaceToFrom l).length := by
  induction l using replaceToFrom.induct with
  | case1 => simp [containsTo] at h
  | case2 c => simp [containsTo] at h
  | case3 c o rest2 hto ih =>
    rw [replaceToFrom, if_pos hto]
    have := replaceToFrom_length_le rest2
    simp
    omega
  | case4 c o rest2 hto ih =>
    rw [containsTo, if_neg hto] at h
    rw [replaceToFrom, if_neg hto]
    have := ih h
    simp at this ⊢
    omega

/-- The output of the deriver contains no occurrence of `to` at all — every
occurrence was replaced, not just the first. -/
theorem containsTo_replaceToFrom (l : List Char) :
    containsTo (replaceToFrom l) = false := by
  induction l using replaceToFrom.induct with
  | case1 => rfl
  | case2 c => rfl
  | case3 c o rest2 hto ih =>
    rw [replaceToFrom, if_pos hto]
    rw [containsTo, if_neg (by decide)]
    rw [containsTo, if_neg (by decide)]
    rw [containsTo, if_neg (by decide)]
    cases hrep : replaceToFrom rest2 with
    | nil => rfl
    | cons a tl =>
      rw [containsTo]
      rw [hrep] at ih
      rw [if_neg ?hne]
      · exact ih
      · rintro ⟨hm, _⟩
        exact absurd hm (by decide)
  | case4 c o rest2 hto ih =>
    rw [replaceToFrom, if_neg hto]
    cases hrep : replaceToFrom (o :: rest2) with
    | nil => rfl
    | cons a tl =>
      rw [containsTo]
      rw [hrep] at ih
      rw [if_neg ?hne2]
      · exact ih
      · rintro ⟨hc, ha⟩
        subst hc
        have ho : o ≠ 'o' := fun hoo => hto ⟨rfl, hoo⟩
        cases rest2 with
        | nil =>
          rw [replaceToFrom] at hrep
          injection hrep with h1 h2
          exact ho (h1 ▸ ha)
        | cons b tl2 =>
          rw [replaceToFrom] at hrep
          by_cases hob : o = 't' ∧ b = 'o'
          · rw [if_pos hob] at hrep
            injection hrep with h1 h2
            subst ha
            exact absurd h1.symm (by decide)
          · rw [if_neg hob] at hrep
            injection hrep with h1 h2
            exact ho (h1 ▸ ha)

/-- The only exception Step 2 can raise is `TypeError`. -/
theorem normalizeTimestamp_error (fmt : Int → String)
    (payload : List (String × JVal)) (e : PyErr)
    (h : normalizeTimestamp fmt payload = .error e) : e = PyErr.typeError := by
  unfold normalizeTimestamp at h
  split at h
  · simp at h
  · split at h
    · simp at h
    · injection h with h1
      exact h1.symm

/-- The only exception the fan-out loop can raise is `ConnectionClosed`. -/
theorem fanoutRun_error (reg : List Entry) (closed : List ConnId)
    (topic msg : String) :
    (fanoutRun reg closed topic msg).2 = none ∨
      (fanoutRun reg closed topic msg).2 = some PyErr.connectionClosed := by
  induction reg with
  | nil => left; rfl
  | cons e rest ih =>
    cases hc : entryConnForTopic e topic with
    | none => simpa [fanoutRun, hc] using ih
    | some c =>
      by_cases hin : closed.contains c = true
      · have hmem : c ∈ closed := by simpa using hin
        right; simp [fanoutRun, hc, hmem]
      · have hmem : c ∉ closed := by simpa using hin
        simpa [fanoutRun, hc, hmem] using ih

/-- Unfolding of the router once the `report` field is known to be present. -/
theorem router_eq (fmt : Int → String) (registry : List Entry)
    (closed : List ConnId) (topic : String) (payload : List (String × JVal))
    (rep : JVal) (h : objGet payload "report" = some rep) :
    incoming_message_processing fmt registry closed topic payload =
      (let closed1 := if isPanicVal rep then closeStep registry closed topic
        else closed
       match normalizeTimestamp fmt payload with
       | .error e => ⟨registry, closed1, [], some e⟩
       | .ok p1 =>
         ⟨registry, closed1,
           (fanoutRun registry closed1 topic (dumpsVal (.obj p1))).1,
           (fanoutRun registry closed1 topic (dumpsVal (.obj p1))).2⟩) := by
  unfold incoming_message_processing
  rw [h]

/-! ### Claim theorems -/

/-- Claim C1, counterexample: on the id `"to_motor"` the code's deriver
(Python `replace`, which replaces every occurrence) yields
`"from_mofromr"`, not the `"from_motor"` that first-occurrence-only
replacement (the claim's statement, `deriveSubscribeFirstOnly`) predicts. -/
theorem c1_counterexample :
    deriveSubscribeFirstOnly "to_motor" = "from_motor"
    ∧ deriveSubscribe "to_motor" = "from_mofromr"
    ∧ deriveSubscribe "to_motor" ≠ "from_motor" := by
  refine ⟨?_, ?_, ?_⟩ <;> decide

/-- Claim C1, amended: the derived subscribe topic replaces EVERY
left-to-right non-overlapping occurrence of `"to"` with `"from"` (the
result contains no `"to"` at all, and each leading occurrence maps to
`"from"`); an id with no occurrence of `"to"` — and only such an id — is
returned unchanged, and no error is raised. -/
theorem c1_amended (id : String) :
    containsTo (deriveSubscribe id).data = false
    ∧ (deriveSubscribe id = id ↔ containsTo id.data = false)
    ∧ ∀ s : List Char,
        deriveSubscribe (String.mk ('t' :: 'o' :: s)) =
          String.mk ('f' :: 'r' :: 'o' :: 'm' :: replaceToFrom s) := by
  refine ⟨?_, ⟨?_, ?_⟩, ?_⟩
  · exact containsTo_replaceToFrom id.data
  · intro h
    by_contra hc
    rw [Bool.not_eq_false] at hc
    have hlt := replaceToFrom_length_lt id.data hc
    have hdat := congrArg String.data h
    have hdat' : replaceToFrom id.data = id.data := hdat
    rw [hdat'] at hlt
    exact lt_irrefl _ hlt
  · intro h
    obtain ⟨dat⟩ := id
    show String.mk (replaceToFrom dat) = String.mk dat
    rw [replaceToFrom_of_not_containsTo dat h]
  · intro s
    rfl

/-- Claim C1, witness for the amended theorem: the pass-through direction at
the concrete id `"abc"`. -/
theorem c1_witness : deriveSubscribe "abc" = "abc" :=
  (c1_amended "abc").2.1.mpr (by decide)

/-- Claim C2, counterexample: a JSON parse failure on a post-handshake frame
is NOT treated as `ConnectionClosed` — `json.loads` raises
`JSONDecodeError`, which the relay's `except (ConnectionClosed, TypeError)`
clause does not catch, so the loop terminates with the exception escaping
and the session's registry entry is still present (count 1, not 0). -/
theorem c2_counterexample :
    (receive_data 7 "to_x" [Entry.mk 7 "from_x"]
        [RecvEvent.text (Except.error PyErr.jsonDecodeError)]).exit =
      RelayExit.uncaught PyErr.jsonDecodeError
    ∧ countConn 7 (receive_data 7 "to_x" [Entry.mk 7 "from_x"]
        [RecvEvent.text (Except.error PyErr.jsonDecodeError)]).registry ≠ 0 := by
  refine ⟨rfl, ?_⟩
  decide

/-- Claim C2, amended: whenever the relay loop terminates through its caught
exception path (`ConnectionClosed` from the closed connection, or
`TypeError`), the session's registry entries are removed so the entry count
for that connection is zero; when an exception (such as `JSONDecodeError`
from a malformed frame) escapes uncaught, the registry is left untouched. -/
theorem c2_amended (ws : ConnId) (pub : String) (registry : List Entry)
    (script : List RecvEvent) :
    ((receive_data ws pub registry script).exit = RelayExit.cleanedUp →
      countConn ws (receive_data ws pub registry script).registry = 0)
    ∧ ∀ e : PyErr,
        (receive_data ws pub registry script).exit = RelayExit.uncaught e →
        (receive_data ws pub registry script).registry = registry :=
  ⟨receive_data_cleanup ws pub registry script,
    fun e h => receive_data_uncaught ws pub registry script e h⟩

/-- Claim C2, witness: the amended theorem applied to a session observing
its connection close. -/
theorem c2_witness :
    countConn 7 (receive_data 7 "to_x" [Entry.mk 7 "from_x"]
      [RecvEvent.closed]).registry = 0 :=
  (c2_amended 7 "to_x" [Entry.mk 7 "from_x"] [RecvEvent.closed]).1 rfl

/-- Claim C3, counterexample: a delivered payload WITHOUT a `report` field
makes `payload['report']` raise `KeyError` (line 190), so the router raises
and performs neither timestamp normalization nor fan-out — even though a
session matching the topic is registered. -/
theorem c3_counterexample :
    (incoming_message_processing (fun _ => "1970-01-01 00:00:00")
        [Entry.mk 0 "from_a"] [] "from_a" [("value", JVal.num 1)]).error =
      some PyErr.keyError
    ∧ (incoming_message_processing (fun _ => "1970-01-01 00:00:00")
        [Entry.mk 0 "from_a"] [] "from_a" [("value", JVal.num 1)]).sends =
      [] := by
  exact ⟨rfl, rfl⟩

/-- Claim C3, amended: the router requires the `report` field. When it is
absent, `KeyError` is raised before any normalization or fan-out (nothing
is sent, nothing is closed).  When it is present with any value other than
`"panic"`, no connection is closed and no `KeyError` arises — processing
proceeds to the timestamp and fan-out steps. -/
theorem c3_amended (fmt : Int → String) (registry : List Entry)
    (closed : List ConnId) (topic : String)
    (payload : List (String × JVal)) :
    (objGet payload "report" = none →
      incoming_message_processing fmt registry closed topic payload =
        ⟨registry, closed, [], some PyErr.keyError⟩)
    ∧ ∀ rep : JVal, objGet payload "report" = some rep →
        isPanicVal rep = false →
        (incoming_message_processing fmt registry closed topic payload).closed
            = closed
        ∧ (incoming_message_processing fmt registry closed topic
            payload).error ≠ some PyErr.keyError := by
  constructor
  · intro h
    unfold incoming_message_processing
    rw [h]
  · intro rep h hnp
    rw [router_eq fmt registry closed topic payload rep h]
    simp only [hnp, Bool.false_eq_true, if_false]
    cases hnt : normalizeTimestamp fmt payload with
    | error e =>
      refine ⟨rfl, ?_⟩
      have he := normalizeTimestamp_error fmt payload e hnt
      subst he
      simp
    | ok p1 =>
      refine ⟨rfl, ?_⟩
      show (fanoutRun registry closed topic (dumpsVal (.obj p1))).2 ≠
        some PyErr.keyError
      rcases fanoutRun_error registry closed topic (dumpsVal (.obj p1))
        with h1 | h1 <;> rw [h1] <;> simp

/-- Claim C3, witness: the amended theorem applied to a payload whose
`report` value is an ordinary (non-panic) string. -/
theorem c3_witness :
    (incoming_message_processing (fun _ => "1970-01-01 00:00:00")
        [Entry.mk 0 "from_a"] [] "from_a"
        [("report", JVal.str "ok")]).closed = [] :=
  ((c3_amended (fun _ => "1970-01-01 00:00:00") [Entry.mk 0 "from_a"] []
    "from_a" [("report", JVal.str "ok")]).2 (JVal.str "ok") rfl rfl).1

/-- Keys other than the assigned one are unaffected by a dict assignment. -/
theorem objGet_objSet_ne (fields : List (String × JVal)) (k k' : String)
    (v : JVal) (h : k' ≠ k) :
    objGet (objSet fields k v) k' = objGet fields k' := by
  induction fields with
  | nil => simp [objSet, objGet, Ne.symm h]
  | cons kv rest ih =>
    obtain ⟨k2, v2⟩ := kv
    by_cases h2 : k2 = k
    · subst h2
      simp [objSet, objGet, Ne.symm h]
    · simp only [objSet, h2, if_false]
      by_cases h3 : k2 = k'
      · simp [objGet, h3]
      · simp [objGet, h3, ih]

/-- Claim C4, counterexample: with zero matching sessions a bus message is
not silently dropped when its payload lacks a `report` field — the router
raises `KeyError` instead of raising no error. -/
theorem c4_counterexample :
    matchingConns [] "from_b" = []
    ∧ (incoming_message_processing (fun _ => "1970-01-01 00:00:00") [] []
        "from_b" [("data", JVal.num 3)]).error = some PyErr.keyError := by
  exact ⟨rfl, rfl⟩

/-- Claim C4, amended: for a bus message whose payload carries a `report`
field with a non-`"panic"` value and a timestamp that Step 2 accepts, and
whose matching sessions are all open, the router raises no error, sends the
serialized payload to exactly the connections of the N matching sessions
(in registry order) and to no others — in particular, with N = 0 nothing
is sent and no error is raised — and closes nothing. -/
theorem c4_amended (fmt : Int → String) (registry : List Entry)
    (closed : List ConnId) (topic : String) (payload : List (String × JVal))
    (rep : JVal)
    (hrep : objGet payload "report" = some rep)
    (hnp : isPanicVal rep = false)
    (hts : ∃ p1, normalizeTimestamp fmt payload = Except.ok p1)
    (hopen : ∀ c ∈ matchingConns registry topic, closed.contains c = false) :
    (incoming_message_processing fmt registry closed topic payload).error =
      none
    ∧ (incoming_message_processing fmt registry closed topic
        payload).sends.map Prod.fst = matchingConns registry topic
    ∧ (incoming_message_processing fmt registry closed topic payload).closed
        = closed := by
  obtain ⟨p1, hp1⟩ := hts
  have hopen' : ∀ e ∈ registry, e.subTopic = topic →
      closed.contains e.conn = false := by
    intro e hm ht
    apply hopen
    unfold matchingConns
    exact List.mem_map_of_mem _
      (List.mem_filter.mpr ⟨hm, by simp [entryHasTopic_eq, ht]⟩)
  have hfr := fanoutRun_all_open registry closed topic
    (dumpsVal (.obj p1)) hopen'
  rw [router_eq fmt registry closed topic payload rep hrep]
  simp only [hnp, Bool.false_eq_true, if_false]
  rw [hp1]
  refine ⟨?_, ?_, rfl⟩
  · show (fanoutRun registry closed topic (dumpsVal (.obj p1))).2 = none
    rw [hfr]
  · show ((fanoutRun registry closed topic
        (dumpsVal (.obj p1))).1).map Prod.fst = matchingConns registry topic
    rw [hfr]
    simp [matchingConns, List.map_map, Function.comp]

/-- Claim C4, witness: a two-session registry on distinct topics; the
message reaches exactly the single matching connection. -/
theorem c4_witness :
    (incoming_message_processing (fun _ => "1970-01-01 00:00:00")
        [Entry.mk 1 "from_a", Entry.mk 2 "from_b"] [] "from_b"
        [("report", JVal.str "ok")]).sends.map Prod.fst = [2] :=
  (c4_amended (fun _ => "1970-01-01 00:00:00")
    [Entry.mk 1 "from_a", Entry.mk 2 "from_b"] [] "from_b"
    [("report", JVal.str "ok")] (JVal.str "ok") rfl rfl
    ⟨[("report", JVal.str "ok")], rfl⟩ (by decide)).2.1

/-- Claim C5, confirmed: on a `"panic"` report for topic T, Step 1 closes
precisely the connections of the registry entries whose subscriber topic
equals T — every matching session's connection ends up closed, and nothing
becomes closed that was not already closed or matching. -/
theorem c5_panic_closes_matching (fmt : Int → String) (registry : List Entry)
    (closed : List ConnId) (topic : String) (payload : List (String × JVal))
    (h : objGet payload "report" = some (JVal.str "panic")) :
    ∀ c : ConnId,
      c ∈ (incoming_message_processing fmt registry closed topic
          payload).closed
        ↔ c ∈ closed ∨ ∃ e ∈ registry, e.subTopic = topic ∧ e.conn = c := by
  intro c
  rw [router_eq fmt registry closed topic payload _ h]
  have hp : isPanicVal (JVal.str "panic") = true := rfl
  simp only [hp, if_true]
  cases hnt : normalizeTimestamp fmt payload with
  | error e =>
    show c ∈ closeStep registry closed topic ↔ _
    exact closeStep_mem registry closed topic c
  | ok p1 =>
    show c ∈ closeStep registry closed topic ↔ _
    exact closeStep_mem registry closed topic c

/-- Claim C5, witness: a panic on `"from_p"` closes the matching connection
1 in a registry that also holds a non-matching session 2. -/
theorem c5_witness :
    1 ∈ (incoming_message_processing (fun _ => "1970-01-01 00:00:00")
        [Entry.mk 1 "from_p", Entry.mk 2 "other"] [] "from_p"
        [("report", JVal.str "panic")]).closed
    ∧ ¬(2 ∈ (incoming_message_processing (fun _ => "1970-01-01 00:00:00")
        [Entry.mk 1 "from_p", Entry.mk 2 "other"] [] "from_p"
        [("report", JVal.str "panic")]).closed) := by
  constructor
  · exact (c5_panic_closes_matching (fun _ => "1970-01-01 00:00:00")
      [Entry.mk 1 "from_p", Entry.mk 2 "other"] [] "from_p"
      [("report", JVal.str "panic")] rfl 1).mpr
      (Or.inr ⟨Entry.mk 1 "from_p", by simp, rfl, rfl⟩)
  · intro hmem
    have := (c5_panic_closes_matching (fun _ => "1970-01-01 00:00:00")
      [Entry.mk 1 "from_p", Entry.mk 2 "other"] [] "from_p"
      [("report", JVal.str "panic")] rfl 2).mp hmem
    rcases this with h0 | ⟨e, hm, ht, hc⟩
    · simp at h0
    · rcases List.mem_cons.mp hm with h1 | h2
      · rw [h1] at hc
        exact absurd hc (by decide)
      · simp at h2
        rw [h2] at ht
        exact absurd ht (by decide)

/-- Claim C6, counterexample: a payload whose `timestamp` is non-numeric is
not "left untouched and forwarded" — `fromtimestamp` raises `TypeError`,
the router aborts, and nothing reaches the matching session. -/
theorem c6_counterexample :
    (incoming_message_processing (fun _ => "2023-11-14 22:13:20")
        [Entry.mk 4 "from_t"] [] "from_t"
        [("report", JVal.str "ok"), ("timestamp", JVal.str "noon")]).error =
      some PyErr.typeError
    ∧ (incoming_message_processing (fun _ => "2023-11-14 22:13:20")
        [Entry.mk 4 "from_t"] [] "from_t"
        [("report", JVal.str "ok"), ("timestamp", JVal.str "noon")]).sends =
      [] := by
  exact ⟨rfl, rfl⟩

/-- Claim C6, amended: Step 2 leaves a payload without `timestamp`
untouched; rewrites a numeric `timestamp` in place to the formatted
calendar string, leaving every other field unmodified; and on a
non-numeric `timestamp` raises `TypeError` (aborting the router before any
forwarding) rather than leaving the payload untouched. -/
theorem c6_amended (fmt : Int → String) (payload : List (String × JVal)) :
    (objGet payload "timestamp" = none →
      normalizeTimestamp fmt payload = Except.ok payload)
    ∧ (∀ n : Int, objGet payload "timestamp" = some (JVal.num n) →
        normalizeTimestamp fmt payload =
          Except.ok (objSet payload "timestamp" (JVal.str (fmt n)))
        ∧ ∀ k : String, k ≠ "timestamp" →
            objGet (objSet payload "timestamp" (JVal.str (fmt n))) k =
              objGet payload k)
    ∧ ∀ v : JVal, objGet payload "timestamp" = some v → numValue? v = none →
        normalizeTimestamp fmt payload = Except.error PyErr.typeError := by
  refine ⟨?_, ?_, ?_⟩
  · intro h
    unfold normalizeTimestamp
    rw [h]
  · intro n h
    constructor
    · unfold normalizeTimestamp
      rw [h]
      rfl
    · intro k hk
      exact objGet_objSet_ne payload "timestamp" k (JVal.str (fmt n)) hk
  · intro v h hv
    unfold normalizeTimestamp
    rw [h]
    show (match numValue? v with
      | some n => Except.ok (objSet payload "timestamp" (JVal.str (fmt n)))
      | none => Except.error PyErr.typeError) = Except.error PyErr.typeError
    rw [hv]

/-- Claim C6, witness: the spec's round-trip example — epoch `1700000000`
rewritten to the configured calendar string. -/
theorem c6_witness :
    normalizeTimestamp (fun _ => "2023-11-14 22:13:20")
        [("timestamp", JVal.num 1700000000)] =
      Except.ok [("timestamp", JVal.str "2023-11-14 22:13:20")] :=
  ((c6_amended (fun _ => "2023-11-14 22:13:20")
    [("timestamp", JVal.num 1700000000)]).2.1 1700000000 rfl).1

/-- Claim C7 evaluated at its failing input: the connection closing cleanly
before any frame is NOT a clean, unpropagated abort — the handler swallows
`ConnectionClosedOK` with `pass` (lines 135–136) and then runs
`json.loads(data)` with `data` never assigned (line 139), so an
`UnboundLocalError` escapes the handler.  No session is registered on this
(or any other) failure path, as the claim says. -/
theorem c7_failing_input (ws : ConnId) (registry : List Entry) :
    (wsg ws registry HsEvent.closedOK).error = some PyErr.unboundLocalError
    ∧ (wsg ws registry HsEvent.closedOK).registry = registry
    ∧ ∀ ev : HsEvent, (wsg ws registry ev).error ≠ none →
        (wsg ws registry ev).registry = registry
        ∧ (wsg ws registry ev).relay = none := by
  refine ⟨rfl, rfl, ?_⟩
  intro ev herr
  cases ev with
  | closedOK => exact ⟨rfl, rfl⟩
  | closedError => exact ⟨rfl, rfl⟩
  | text p =>
    cases p with
    | error e => exact ⟨rfl, rfl⟩
    | ok v =>
      cases v with
      | obj fields =>
        cases hid : objGet fields "id" with
        | none => simp [wsg, hid]
        | some idv =>
          cases idv with
          | str s => simp [wsg, hid] at herr
          | null => simp [wsg, hid]
          | bool b => simp [wsg, hid]
          | num n => simp [wsg, hid]
          | arr es => simp [wsg, hid]
          | obj ms => simp [wsg, hid]
      | null => exact ⟨rfl, rfl⟩
      | bool b => exact ⟨rfl, rfl⟩
      | num n => exact ⟨rfl, rfl⟩
      | str s => exact ⟨rfl, rfl⟩
      | arr es => exact ⟨rfl, rfl⟩

/-- Claim C7, witness: the handler evaluated at the clean-close failing
input with connection 5 and an empty registry. -/
theorem c7_witness :
    (wsg 5 [] HsEvent.closedOK).error = some PyErr.unboundLocalError
    ∧ (wsg 5 [] HsEvent.closedOK).registry = [] :=
  ⟨(c7_failing_input 5 []).1, (c7_failing_input 5 []).2.1⟩

/-- Claim C8 evaluated at its failing input: a panic message whose topic
matches one registered session.  Step 1 closes connection 3; Step 3's
matching-entry scan then calls `send` on that same closed connection with
no exception handler around it (lines 206–209), so `ConnectionClosed`
escapes the router — it does not complete without crashing. -/
theorem c8_failing_input :
    (incoming_message_processing (fun _ => "1970-01-01 00:00:00")
        [Entry.mk 3 "from_a"] [] "from_a"
        [("report", JVal.str "panic")]).closed = [3]
    ∧ (incoming_message_processing (fun _ => "1970-01-01 00:00:00")
        [Entry.mk 3 "from_a"] [] "from_a"
        [("report", JVal.str "panic")]).sends = []
    ∧ (incoming_message_processing (fun _ => "1970-01-01 00:00:00")
        [Entry.mk 3 "from_a"] [] "from_a"
        [("report", JVal.str "panic")]).error =
      some PyErr.connectionClosed := by
  exact ⟨rfl, rfl, rfl⟩

/-- Claim C9, counterexample: after a panic message for topic `"from_dev"`
the registry still holds the entry for that topic — panic handling closes
the socket but performs no registry removal (the router never mutates
`active_sockets`). -/
theorem c9_counterexample :
    countTopic "from_dev" (incoming_message_processing
        (fun _ => "1970-01-01 00:00:00") [Entry.mk 2 "from_dev"] []
        "from_dev" [("report", JVal.str "panic")]).registry ≠ 0 := by
  decide

/-- Claim C9, amended: forced panic-closure is NOT itself a registry removal
path — the router always leaves the registry exactly as it found it; each
affected session's entry is removed only afterwards, when that session's
Outbound Relay observes the closed connection (its `recv` raising
`ConnectionClosed`) and runs its cleanup, after which the registry holds no
entry for that connection. -/
theorem c9_amended (fmt : Int → String) (registry : List Entry)
    (closed : List ConnId) (topic : String)
    (payload : List (String × JVal)) :
    (incoming_message_processing fmt registry closed topic payload).registry
      = registry
    ∧ ∀ (ws : ConnId) (pub : String) (reg : List Entry),
        countConn ws
          (receive_data ws pub reg [RecvEvent.closed]).registry = 0 := by
  constructor
  · cases hrep : objGet payload "report" with
    | none => simp [incoming_message_processing, hrep]
    | some rep =>
      rw [router_eq fmt registry closed topic payload rep hrep]
      cases hnt : normalizeTimestamp fmt payload with
      | error e => rfl
      | ok p1 => rfl
  · intro ws pub reg
    simpa [receive_data] using countConn_removeConnEntries ws reg

/-- Claim C10, confirmed: a successful handshake appends exactly one entry
built only from the connection handle and the derived subscribe topic; its
dict is exactly the two-key map `{websocket: 'to_banyan_topic',
subscriber_string: websocket}` (no other string key — in particular no
separate publish-topic key); the publish topic travels only as the
`receive_data` task's parameter; and inbound matching and relay removal
are key-membership tests on these entries, which reduce to comparing the
subscriber topic resp. the connection handle. -/
theorem c10_registry_entry_shape (ws : ConnId) (registry : List Entry)
    (fields : List (String × JVal)) (id : String)
    (h : objGet fields "id" = some (JVal.str id)) :
    (wsg ws registry (HsEvent.text (Except.ok (JVal.obj fields)))).registry =
      registry ++ [Entry.mk ws (deriveSubscribe id)]
    ∧ (wsg ws registry (HsEvent.text (Except.ok (JVal.obj fields)))).relay =
      some (ws, id)
    ∧ entryDict (Entry.mk ws (deriveSubscribe id)) =
      [(DKey.kconn ws, DVal.vstr "to_banyan_topic"),
        (DKey.kstr (deriveSubscribe id), DVal.vconn ws)]
    ∧ (∀ t : String,
        DKey.kstr t ∈ (entryDict (Entry.mk ws (deriveSubscribe id))).map
          Prod.fst → t = deriveSubscribe id)
    ∧ (∀ (e : Entry) (t : String), entryHasTopic e t = true ↔ e.subTopic = t)
    ∧ ∀ (ws' : ConnId) (reg : List Entry),
        removeConnEntries ws' reg =
          reg.filter (fun e => decide (e.conn ≠ ws')) := by
  refine ⟨?_, ?_, rfl, ?_, ?_, ?_⟩
  · simp [wsg, h]
  · simp [wsg, h]
  · intro t hmem
    simpa [entryDict] using hmem
  · intro e t
    rw [entryHasTopic_eq]
    simp
  · intro ws' reg
    exact removeConnEntries_eq ws' reg

/-- Claim C10, witness: the handshake id `"to_dev"` registers the entry for
connection 9 under derived topic `"from_dev"` and hands the publish topic
to the relay task. -/
theorem c10_witness :
    (wsg 9 [] (HsEvent.text (Except.ok
        (JVal.obj [("id", JVal.str "to_dev")])))).registry =
      [Entry.mk 9 "from_dev"]
    ∧ (wsg 9 [] (HsEvent.text (Except.ok
        (JVal.obj [("id", JVal.str "to_dev")])))).relay = some (9, "to_dev")
    := by
  have h := c10_registry_entry_shape 9 [] [("id", JVal.str "to_dev")]
    "to_dev" rfl
  refine ⟨?_, h.2.1⟩
  rw [h.1]
  decide
